import Mathlib

/-!
Verification development for the monetary transfer/deposit core of the
simple-banking-app-v2 repository (`src/routes.py`).

The embedding models:
* accounts (balance, status, role flags) and transaction records;
* the eligibility test repeated verbatim at the mutating call sites of
  `routes.py` (`user.status != 'active' and not user.is_admin and not
  user.is_manager`);
* the `transfer` confirmation handler (routes.py lines 255-303);
* the `execute_transfer` handler (routes.py lines 306-343);
* the `admin_deposit` handler (routes.py lines 453-488);
* the `toggle_admin` handler (routes.py lines 854-880);
* the per-account history query of `admin_user_transactions`
  (routes.py lines 704-712);
* an explicit ORM-session layer (tentative state, commit, rollback) —
  `db.session.commit()` at the call sites and `db.session.rollback()` in
  `internal_error` (routes.py lines 1163-1166).

`User.transfer_money` and `User.deposit` live in `models.py`, which is not
among the provided sources; they are modelled from the spec (sections 4.1
and 7) and marked as such in their doc comments.

Monetary amounts are embedded as exact rationals (`ℚ`); the separate
binary-floating-point question raised by line 317 of `routes.py`
(`amount = float(form.amount.data)`) is treated by `floatRepresentable`
below.
-/

namespace BankCore

/-- Account status, the three values used by `routes.py`. -/
inductive Status
  | pending
  | active
  | deactivated
deriving BEq, DecidableEq, Repr

/-- An account as the routes see it: balance, status and the two role
flags.  Identity (the numeric id used for sender/receiver references) is
kept outside, as the key of the account store. -/
structure Account where
  balance : ℚ
  status : Status
  is_admin : Bool
  is_manager : Bool
deriving DecidableEq, Repr

/-- The ineligibility test written at every mutating call site of
`routes.py` (lines 311, 331, 473; also 260, 285):
`user.status != 'active' and not user.is_admin and not user.is_manager`. -/
def inactiveCheck (u : Account) : Bool :=
  !(u.status == Status.active) && !u.is_admin && !u.is_manager

/-- Eligibility to send or receive funds: the negation of `inactiveCheck`,
i.e. active status or an elevated role. -/
def isEligible (u : Account) : Bool :=
  !(inactiveCheck u)

/-- Transaction kinds appearing in the code (`transaction_type`). -/
inductive TxKind
  | transfer
  | deposit
  | user_edit
deriving BEq, DecidableEq, Repr

/-- A row of the Transactions table: nullable sender reference, receiver
reference, nullable amount, kind tag and timestamp. -/
structure Transaction where
  sender_id : Option Nat
  receiver_id : Nat
  amount : Option ℚ
  transaction_type : TxKind
  timestamp : Nat
deriving DecidableEq, Repr

/-- The error taxonomy of spec section 7. -/
inductive CoreError
  | InsufficientFunds
  | SelfTransfer
  | InactiveAccount
  | AccountNotFound
  | InvalidAmount
  | OperationFailed
deriving DecidableEq, Repr

/-- Persistent store: account data keyed by account id, plus the
append-only transaction ledger (newest first, as rows are consed on). -/
structure DbState where
  accounts : Nat → Account
  ledger : List Transaction

/-- Update one account of the store. -/
def setAccount (db : DbState) (i : Nat) (a : Account) : DbState :=
  { db with accounts := fun j => if j = i then a else db.accounts j }

/-- The ORM session: the committed state plus, possibly, a tentative
(uncommitted) state.  Models SQLAlchemy's unit of work as used by
`routes.py`. -/
structure Session where
  committed : DbState
  pending : Option DbState

/-- `db.session.commit()`: the tentative state, if any, becomes the
committed one. -/
def commit (s : Session) : Session :=
  match s.pending with
  | some db => ⟨db, none⟩
  | none => s

/-- `db.session.rollback()` as performed by the 500 handler
`internal_error` (routes.py lines 1163-1166): tentative changes are
discarded, the committed state stands. -/
def rollback (s : Session) : Session :=
  ⟨s.committed, none⟩

/-- Modelled from the spec: `User.transfer_money` is defined in
`models.py`, which is not among the provided sources.  Spec section 4.1
gives its contract — fail with `SelfTransfer` when sender and recipient
coincide, `InvalidAmount` when the amount is not positive, an
`InactiveAccount` failure when either party is ineligible,
`InsufficientFunds` when the sender's balance is below the amount;
otherwise debit the sender, credit the recipient and produce exactly one
transfer record, all in one unit of work. -/
def transfer_money (senderId : Nat) (sender : Account) (recipientId : Nat)
    (recipient : Account) (amount : ℚ) (now : Nat) :
    Except CoreError (Account × Account × Transaction) :=
  if senderId = recipientId then .error .SelfTransfer
  else if amount ≤ 0 then .error .InvalidAmount
  else if isEligible sender = false then .error .InactiveAccount
  else if isEligible recipient = false then .error .InactiveAccount
  else if sender.balance < amount then .error .InsufficientFunds
  else
    .ok ({ sender with balance := sender.balance - amount },
         { recipient with balance := recipient.balance + amount },
         ⟨some senderId, recipientId, some amount, TxKind.transfer, now⟩)

/-- Modelled from the spec: `User.deposit` is defined in `models.py`,
which is not among the provided sources.  Spec sections 4.1 and 8 give its
contract — fail with `InvalidAmount` when the amount is not positive,
`InactiveAccount` when the target is ineligible; otherwise increment the
target's balance by the amount and produce exactly one deposit record
whose sender reference is null (the acting administrator is audit
metadata only and does not affect balances). -/
def deposit (targetId : Nat) (target : Account) (amount : ℚ) (now : Nat) :
    Except CoreError (Account × Transaction) :=
  if amount ≤ 0 then .error .InvalidAmount
  else if isEligible target = false then .error .InactiveAccount
  else
    .ok ({ target with balance := target.balance + amount },
         ⟨none, targetId, some amount, TxKind.deposit, now⟩)

/-- Outcome of the `transfer` confirmation handler. -/
inductive TransferOutcome
  | confirmPage
  | refused (e : CoreError)
  | pyError
deriving DecidableEq, Repr

/-- The `transfer` confirmation handler, routes.py lines 255-303.
`recipientId?` is the result of the identity-resolution query
(`User.query.filter_by(...).first()`, lines 268-271): `none` when no such
user exists.  The handler checks, in source order: the sender's own
eligibility gate (line 260), the self-transfer guard (line 276, skipped
when the recipient was not found because `recipient and ...` is falsy),
the balance (line 280), and the recipient's eligibility (line 285).  Line
285 dereferences `recipient.status` without a `None` check, so a missing
recipient that survives to that line raises `AttributeError`, modelled as
`.pyError`. -/
def transfer (db : DbState) (senderId : Nat) (recipientId? : Option Nat)
    (amount : ℚ) : TransferOutcome :=
  let sender := db.accounts senderId
  if isEligible sender = false then .refused .InactiveAccount
  else
    let selfHit :=
      match recipientId? with
      | some rid => decide (rid = senderId)
      | none => false
    if selfHit then .refused .SelfTransfer
    else if sender.balance < amount then .refused .InsufficientFunds
    else
      match recipientId? with
      | none => .pyError
      | some rid =>
        if isEligible (db.accounts rid) = false then .refused .InactiveAccount
        else .confirmPage

/-- The `execute_transfer` handler, routes.py lines 306-343.  In source
order: the sender's eligibility gate (line 311), recipient resolution
(lines 320-324) with the explicit not-found branch (line 326), the
recipient's eligibility (line 331), then `transfer_money` followed by
`db.session.commit()` on success (lines 335-336).  `appendFault := true`
injects a storage fault while the transaction record is appended after
the tentative balance mutation; the resulting exception reaches the 500
handler, which rolls the session back (routes.py lines 1163-1166). -/
def execute_transfer (sess : Session) (senderId : Nat)
    (recipientId? : Option Nat) (amount : ℚ) (now : Nat)
    (appendFault : Bool) : Session × Option CoreError :=
  let db := sess.committed
  let sender := db.accounts senderId
  if isEligible sender = false then (sess, some .InactiveAccount)
  else
    match recipientId? with
    | none => (sess, some .AccountNotFound)
    | some rid =>
      if isEligible (db.accounts rid) = false then
        (sess, some .InactiveAccount)
      else
        match transfer_money senderId sender rid (db.accounts rid) amount now with
        | .error e => (sess, some e)
        | .ok (s', r', tx) =>
          let tentative := setAccount (setAccount db senderId s') rid r'
          if appendFault then
            (rollback ⟨sess.committed, some tentative⟩, some .OperationFailed)
          else
            (commit ⟨sess.committed,
                some { tentative with ledger := tx :: db.ledger }⟩, none)

/-- The `admin_deposit` handler, routes.py lines 453-488.  In source
order: target resolution by account number (line 467) with the not-found
branch (line 468), the target's eligibility (line 473), then
`user.deposit(...)` followed by `db.session.commit()` on success (lines
480-481).  `appendFault` is as in `execute_transfer`. -/
def admin_deposit (sess : Session) (targetId? : Option Nat) (amount : ℚ)
    (now : Nat) (appendFault : Bool) : Session × Option CoreError :=
  match targetId? with
  | none => (sess, some .AccountNotFound)
  | some uid =>
    let user := sess.committed.accounts uid
    if isEligible user = false then (sess, some .InactiveAccount)
    else
      match deposit uid user amount now with
      | .error e => (sess, some e)
      | .ok (u', tx) =>
        let tentative := setAccount sess.committed uid u'
        if appendFault then
          (rollback ⟨sess.committed, some tentative⟩, some .OperationFailed)
        else
          (commit ⟨sess.committed,
              some { tentative with ledger := tx :: sess.committed.ledger }⟩,
           none)

/-- Outcome of the `toggle_admin` handler. -/
inductive ToggleOutcome
  | blockedManager
  | promoted
  | demoted
deriving DecidableEq, Repr

/-- The `toggle_admin` handler, routes.py lines 854-880: managers may not
be modified; otherwise the admin flag is flipped, and on promotion the
status is unconditionally set to active (line 873) while demotion leaves
the status field untouched. -/
def toggle_admin (user : Account) : Account × ToggleOutcome :=
  if user.is_manager then (user, .blockedManager)
  else
    let user' := { user with is_admin := !user.is_admin }
    if user'.is_admin then
      ({ user' with status := Status.active }, .promoted)
    else
      (user', .demoted)

/-- Does a record involve account `uid` as sender or receiver?  The filter
of routes.py lines 709-711. -/
def involves (uid : Nat) (t : Transaction) : Bool :=
  t.sender_id == some uid || t.receiver_id == uid

/-- Newest-first ordering on records: `order_by(Transaction.timestamp.desc())`. -/
def newestFirst (a b : Transaction) : Prop :=
  b.timestamp ≤ a.timestamp

instance : DecidableRel newestFirst :=
  fun a b => inferInstanceAs (Decidable (b.timestamp ≤ a.timestamp))

instance : IsTotal Transaction newestFirst :=
  ⟨fun a b => (Nat.le_total b.timestamp a.timestamp).elim Or.inl Or.inr⟩

instance : IsTrans Transaction newestFirst :=
  ⟨fun _ _ _ hab hbc => le_trans hbc hab⟩

/-- The per-account history query of `admin_user_transactions`,
routes.py lines 707-712: all records where the account is sender or
receiver, ordered by timestamp descending. -/
def admin_user_transactions (db : DbState) (uid : Nat) : List Transaction :=
  List.insertionSort newestFirst (db.ledger.filter (fun t => involves uid t))

/-- The value domain of `amount = float(form.amount.data)` at routes.py
line 317: every finite Python float (IEEE-754 binary64) is a dyadic
rational, an integer divided by a power of two. -/
def floatRepresentable (q : ℚ) : Prop :=
  ∃ (m : ℤ) (e : ℕ), q = (m : ℚ) / 2 ^ e

/-- The binary64 value `float("0.1")` actually produces — the nearest
double to one tenth — as an exact rational. -/
def pyFloatPointOne : ℚ :=
  3602879701896397 / 2 ^ 55

/-! ### Concrete states used by the witnesses -/

/-- An ordinary active account with balance 100. -/
def accActive : Account :=
  ⟨100, Status.active, false, false⟩

/-- A second active account with balance 50. -/
def accOther : Account :=
  ⟨50, Status.active, false, false⟩

/-- A pending, unprivileged account with balance 20. -/
def accPending : Account :=
  ⟨20, Status.pending, false, false⟩

/-- A concrete store: account 1 is `accActive`, account 2 is `accOther`,
every other id resolves to `accPending`; empty ledger. -/
def dbEx : DbState :=
  ⟨fun i => if i = 1 then accActive else if i = 2 then accOther else accPending,
   []⟩

/-- A session over `dbEx` with no tentative changes. -/
def sessEx : Session :=
  ⟨dbEx, none⟩

/-! ### Helper lemmas -/

/-- The eligibility test accepts exactly: active status, or an elevated
role. -/
theorem isEligible_true_iff (u : Account) :
    isEligible u = true ↔
      (u.status = Status.active ∨ u.is_admin = true ∨ u.is_manager = true) := by
  rcases u with ⟨b, st, ad, mg⟩
  cases st <;> cases ad <;> cases mg <;>
    simp [isEligible, inactiveCheck] <;> decide

/-- The eligibility test rejects exactly the non-active accounts holding
neither role. -/
theorem isEligible_false_iff (u : Account) :
    isEligible u = false ↔
      (u.status ≠ Status.active ∧ u.is_admin = false ∧ u.is_manager = false) := by
  rcases u with ⟨b, st, ad, mg⟩
  cases st <;> cases ad <;> cases mg <;>
    simp [isEligible, inactiveCheck] <;> decide

/-! ### The claims -/

/-- C3: a transfer from an account to itself is rejected with
`SelfTransfer`, the balance is unchanged and no transaction record is
created, on both paths that execute a transfer: the `transfer`
confirmation handler and the `execute_transfer` handler (through the
core's self-transfer guard).  The returned session is exactly the input
session, so no balance moved and no record was appended. -/
theorem self_transfer_rejected (sess : Session) (senderId : Nat)
    (amount : ℚ) (now : Nat) (fault : Bool)
    (hs : isEligible (sess.committed.accounts senderId) = true) :
    transfer sess.committed senderId (some senderId) amount =
      TransferOutcome.refused CoreError.SelfTransfer ∧
    execute_transfer sess senderId (some senderId) amount now fault =
      (sess, some CoreError.SelfTransfer) := by
  constructor
  · simp [transfer, hs]
  · simp [execute_transfer, transfer_money, hs]

/-- Witness for C3 at a concrete input: account 1 of `sessEx`
transferring 5 to itself. -/
theorem self_transfer_rejected_witness :
    transfer sessEx.committed 1 (some 1) 5 =
      TransferOutcome.refused CoreError.SelfTransfer ∧
    execute_transfer sessEx 1 (some 1) 5 0 false =
      (sessEx, some CoreError.SelfTransfer) :=
  self_transfer_rejected sessEx 1 5 0 false (by decide)

/-- C4 (failing input): in the `transfer` confirmation handler, a
recipient that cannot be resolved is NOT reported as not-found — when the
sender has sufficient balance, line 285 of routes.py dereferences `None`
and raises `AttributeError` (modelled `pyError`), an unhandled fault.
Only the `execute_transfer` handler reports `AccountNotFound` as the
claim describes. -/
theorem transfer_missing_recipient_crashes :
    transfer dbEx 1 none 5 = TransferOutcome.pyError ∧
    execute_transfer sessEx 1 none 5 0 false =
      (sessEx, some CoreError.AccountNotFound) :=
  ⟨rfl, rfl⟩

/-- C6: a deposit whose target is not active (pending or deactivated) and
holds neither the admin nor the manager role fails with
`InactiveAccount`; the session is returned unchanged, so the target's
balance is untouched and no record is created. -/
theorem admin_deposit_inactive_rejected (sess : Session) (uid : Nat)
    (amount : ℚ) (now : Nat) (fault : Bool)
    (hstat : (sess.committed.accounts uid).status ≠ Status.active)
    (hadm : (sess.committed.accounts uid).is_admin = false)
    (hmgr : (sess.committed.accounts uid).is_manager = false) :
    admin_deposit sess (some uid) amount now fault =
      (sess, some CoreError.InactiveAccount) := by
  have h : isEligible (sess.committed.accounts uid) = false :=
    (isEligible_false_iff _).mpr ⟨hstat, hadm, hmgr⟩
  simp [admin_deposit, h]

/-- Witness for C6 at a concrete input: account 3 of `sessEx` is pending
and unprivileged; a deposit of 5 is rejected. -/
theorem admin_deposit_inactive_rejected_witness :
    admin_deposit sessEx (some 3) 5 0 false =
      (sessEx, some CoreError.InactiveAccount) :=
  admin_deposit_inactive_rejected sessEx 3 5 0 false (by decide) (by decide)
    (by decide)

/-- C8: the per-account history is exactly the set of ledger records in
which the account appears as sender or receiver — a permutation of the
filtered ledger, with matching membership and length — ordered by
timestamp descending (newest first). -/
theorem admin_user_transactions_spec (db : DbState) (uid : Nat) :
    (admin_user_transactions db uid).Perm
        (db.ledger.filter (fun t => involves uid t)) ∧
    (∀ t, t ∈ admin_user_transactions db uid ↔
        t ∈ db.ledger ∧ involves uid t = true) ∧
    List.Sorted newestFirst (admin_user_transactions db uid) ∧
    (admin_user_transactions db uid).length =
      (db.ledger.filter (fun t => involves uid t)).length := by
  have hperm := List.perm_insertionSort newestFirst
      (db.ledger.filter (fun t => involves uid t))
  refine ⟨hperm, ?_, List.sorted_insertionSort newestFirst _, hperm.length_eq⟩
  intro t
  rw [admin_user_transactions, hperm.mem_iff, List.mem_filter]

/-- C9 (failing input): routes.py line 317 coerces every transfer amount
through `float(...)`, whose finite values are the dyadic rationals
(`floatRepresentable`).  The decimal amount 0.10 is not dyadic, so the
value the code actually processes for input "0.1" — `pyFloatPointOne`,
the nearest binary64 — differs from one tenth: the arithmetic is binary
floating point and carries rounding error, contradicting the exact
fixed-point contract. -/
theorem execute_transfer_amount_not_exact :
    floatRepresentable pyFloatPointOne ∧
    pyFloatPointOne ≠ (1 : ℚ) / 10 ∧
    ¬ floatRepresentable ((1 : ℚ) / 10) := by
  refine ⟨⟨3602879701896397, 55, by norm_num [pyFloatPointOne]⟩,
    by norm_num [pyFloatPointOne], ?_⟩
  rintro ⟨m, e, hme⟩
  have h2 : ((2 : ℚ) ^ e) ≠ 0 := by positivity
  have hq : (m : ℚ) * 10 = 2 ^ e := by
    field_simp at hme
    linarith
  have hz : (2 : ℤ) ^ e = 10 * m := by
    have : ((10 * m : ℤ) : ℚ) = ((2 ^ e : ℤ) : ℚ) := by push_cast; linarith
    exact_mod_cast this.symm
  have h5 : (5 : ℤ) ∣ 2 ^ e := ⟨2 * m, by linarith⟩
  have hp : Prime (5 : ℤ) := by norm_num
  have := hp.dvd_of_dvd_pow h5
  norm_num at this

/-- C10: the manager's `toggle_admin` on a non-manager account:
promotion to admin unconditionally sets the status to active, making the
account eligible to transact at once; demotion from admin leaves the
status field untouched. -/
theorem toggle_admin_promotion_activates (u : Account)
    (hm : u.is_manager = false) :
    (u.is_admin = false →
        toggle_admin u =
          ({ u with is_admin := true, status := Status.active },
           ToggleOutcome.promoted) ∧
        (toggle_admin u).1.status = Status.active ∧
        isEligible (toggle_admin u).1 = true) ∧
    (u.is_admin = true →
        (toggle_admin u).1.status = u.status ∧
        (toggle_admin u).1.is_admin = false ∧
        (toggle_admin u).2 = ToggleOutcome.demoted) := by
  constructor
  · intro ha
    refine ⟨by simp [toggle_admin, hm, ha], ?_, ?_⟩
    · simp [toggle_admin, hm, ha]
    · simp [toggle_admin, hm, ha, isEligible, inactiveCheck]
  · intro ha
    refine ⟨?_, ?_, ?_⟩ <;> simp [toggle_admin, hm, ha]

/-- Witness for C10 at a concrete input: promoting the pending,
unprivileged `accPending` activates it and makes it eligible. -/
theorem toggle_admin_promotion_activates_witness :
    toggle_admin accPending =
      ({ accPending with is_admin := true, status := Status.active },
       ToggleOutcome.promoted) ∧
    (toggle_admin accPending).1.status = Status.active ∧
    isEligible (toggle_admin accPending).1 = true :=
  (toggle_admin_promotion_activates accPending rfl).1 rfl

/-- C1: with an otherwise-valid transfer (distinct, eligible parties and
a positive amount), an amount exceeding the sender's balance fails with
`InsufficientFunds` on both transfer paths, leaving the session — hence
both balances and the ledger — exactly as before; an amount at most the
sender's balance (draining to zero included) passes the insufficiency
check on both paths. -/
theorem insufficient_funds_spec (sess : Session) (senderId rid : Nat)
    (amount : ℚ) (now : Nat) (fault : Bool)
    (hne : rid ≠ senderId)
    (hs : isEligible (sess.committed.accounts senderId) = true)
    (hr : isEligible (sess.committed.accounts rid) = true)
    (hpos : 0 < amount) :
    ((sess.committed.accounts senderId).balance < amount →
        transfer sess.committed senderId (some rid) amount =
          TransferOutcome.refused CoreError.InsufficientFunds ∧
        execute_transfer sess senderId (some rid) amount now fault =
          (sess, some CoreError.InsufficientFunds)) ∧
    (amount ≤ (sess.committed.accounts senderId).balance →
        transfer sess.committed senderId (some rid) amount =
          TransferOutcome.confirmPage ∧
        (execute_transfer sess senderId (some rid) amount now fault).2 ≠
          some CoreError.InsufficientFunds) := by
  have hne' : senderId ≠ rid := fun h => hne h.symm
  have hnot : ¬ amount ≤ 0 := not_le.mpr hpos
  constructor
  · intro hlt
    constructor
    · simp [transfer, hs, hne, hlt]
    · simp [execute_transfer, transfer_money, hs, hr, hne', hnot, hlt]
  · intro hle
    have hnlt : ¬ (sess.committed.accounts senderId).balance < amount :=
      not_lt.mpr hle
    constructor
    · simp [transfer, hs, hr, hne, hnlt]
    · cases fault <;>
        simp [execute_transfer, transfer_money, hs, hr, hne', hnot, hnlt,
          commit, rollback]

/-- Witness for C1 at a concrete input: account 1 (balance 100) sending
150 to account 2 is refused with `InsufficientFunds` on both paths and
the session is unchanged. -/
theorem insufficient_funds_spec_witness :
    transfer sessEx.committed 1 (some 2) 150 =
      TransferOutcome.refused CoreError.InsufficientFunds ∧
    execute_transfer sessEx 1 (some 2) 150 0 false =
      (sessEx, some CoreError.InsufficientFunds) :=
  (insufficient_funds_spec sessEx 1 2 150 0 false (by decide) (by decide)
      (by decide) (by decide)).1 (by decide)

/-- C5: a deposit of a positive amount to an eligible target succeeds:
the target's balance grows by exactly the amount, every other account is
untouched, and exactly one new record is appended — of kind deposit,
with a null sender reference, carrying the amount. -/
theorem admin_deposit_credits (sess : Session) (uid : Nat) (amount : ℚ)
    (now : Nat) (hpos : 0 < amount)
    (he : isEligible (sess.committed.accounts uid) = true) :
    (admin_deposit sess (some uid) amount now false).2 = none ∧
    ((admin_deposit sess (some uid) amount now false).1.committed.accounts
        uid).balance
      = (sess.committed.accounts uid).balance + amount ∧
    (∀ j, j ≠ uid →
        (admin_deposit sess (some uid) amount now false).1.committed.accounts j
          = sess.committed.accounts j) ∧
    (admin_deposit sess (some uid) amount now false).1.committed.ledger
      = ⟨none, uid, some amount, TxKind.deposit, now⟩ ::
          sess.committed.ledger := by
  have hnot : ¬ amount ≤ 0 := not_le.mpr hpos
  refine ⟨?_, ?_, ?_, ?_⟩
  · simp [admin_deposit, deposit, he, hnot, commit]
  · simp [admin_deposit, deposit, he, hnot, commit, setAccount]
  · intro j hj
    simp [admin_deposit, deposit, he, hnot, commit, setAccount, hj]
  · simp [admin_deposit, deposit, he, hnot, commit, setAccount]

/-- Witness for C5 at a concrete input: depositing 5 to account 2
(balance 50) of `sessEx` succeeds, credits exactly 5 and appends the one
null-sender deposit record. -/
theorem admin_deposit_credits_witness :
    (admin_deposit sessEx (some 2) 5 0 false).2 = none ∧
    ((admin_deposit sessEx (some 2) 5 0 false).1.committed.accounts 2).balance
      = (sessEx.committed.accounts 2).balance + 5 ∧
    (admin_deposit sessEx (some 2) 5 0 false).1.committed.ledger
      = ⟨none, 2, some 5, TxKind.deposit, 0⟩ :: sessEx.committed.ledger :=
  ⟨(admin_deposit_credits sessEx 2 5 0 (by decide) (by decide)).1,
   (admin_deposit_credits sessEx 2 5 0 (by decide) (by decide)).2.1,
   (admin_deposit_credits sessEx 2 5 0 (by decide) (by decide)).2.2.2⟩

/-- C7: one and the same eligibility predicate — active status OR the
admin or manager role — gates every party of every mutating call: the
sender and the recipient of `execute_transfer` and the target of
`admin_deposit`; an ineligible party makes the operation fail with
`InactiveAccount` and the session is returned unchanged. -/
theorem eligibility_gate_uniform (u : Account) (sess : Session)
    (senderId rid uid : Nat) (amount : ℚ) (now : Nat) (fault : Bool) :
    (isEligible u = true ↔
        (u.status = Status.active ∨ u.is_admin = true ∨ u.is_manager = true)) ∧
    (isEligible (sess.committed.accounts senderId) = false →
        execute_transfer sess senderId (some rid) amount now fault =
          (sess, some CoreError.InactiveAccount)) ∧
    (isEligible (sess.committed.accounts senderId) = true →
      isEligible (sess.committed.accounts rid) = false →
        execute_transfer sess senderId (some rid) amount now fault =
          (sess, some CoreError.InactiveAccount)) ∧
    (isEligible (sess.committed.accounts uid) = false →
        admin_deposit sess (some uid) amount now fault =
          (sess, some CoreError.InactiveAccount)) := by
  refine ⟨isEligible_true_iff u, ?_, ?_, ?_⟩
  · intro h
    simp [execute_transfer, h]
  · intro hs hr
    simp [execute_transfer, hs, hr]
  · intro h
    simp [admin_deposit, h]

/-- Witness for C7 at a concrete input: account 3 of `sessEx` is pending
and unprivileged, so it can neither send a transfer nor receive a
deposit. -/
theorem eligibility_gate_uniform_witness :
    execute_transfer sessEx 3 (some 2) 5 0 false =
      (sessEx, some CoreError.InactiveAccount) ∧
    admin_deposit sessEx (some 3) 5 0 false =
      (sessEx, some CoreError.InactiveAccount) :=
  ⟨(eligibility_gate_uniform accPending sessEx 3 2 3 5 0 false).2.1 (by decide),
   (eligibility_gate_uniform accPending sessEx 3 2 3 5 0 false).2.2.2
     (by decide)⟩

/-- Frame lemma: a failing `execute_transfer` leaves the committed state
exactly as before the call — error branches return the session unchanged,
and the record-append fault rolls the tentative unit of work back. -/
theorem execute_transfer_fail_frame (sess : Session) (senderId : Nat)
    (rcpt? : Option Nat) (amount : ℚ) (now : Nat) (fault : Bool)
    (h : (execute_transfer sess senderId rcpt? amount now fault).2 ≠ none) :
    (execute_transfer sess senderId rcpt? amount now fault).1.committed
      = sess.committed := by
  rcases rcpt? with _ | rid
  · by_cases hs : isEligible (sess.committed.accounts senderId) = false <;>
      simp [execute_transfer, hs]
  · by_cases hs : isEligible (sess.committed.accounts senderId) = false
    · simp [execute_transfer, hs]
    · by_cases hr : isEligible (sess.committed.accounts rid) = false
      · simp [execute_transfer, hs, hr]
      · rcases htm : transfer_money senderId (sess.committed.accounts senderId)
            rid (sess.committed.accounts rid) amount now with e | res
        · simp [execute_transfer, hs, hr, htm]
        · cases fault
          · exact absurd (by simp [execute_transfer, hs, hr, htm, commit]) h
          · simp [execute_transfer, hs, hr, htm, rollback]

/-- Shape lemma: a succeeding `execute_transfer` committed exactly the
unit of work — sender debited by the amount, recipient credited by the
amount, every other account untouched, and exactly one matching transfer
record appended. -/
theorem execute_transfer_success_shape (sess : Session) (senderId : Nat)
    (rcpt? : Option Nat) (amount : ℚ) (now : Nat) (fault : Bool)
    (h : (execute_transfer sess senderId rcpt? amount now fault).2 = none) :
    ∃ rid, rcpt? = some rid ∧ senderId ≠ rid ∧
      (execute_transfer sess senderId rcpt? amount now fault).1.committed.ledger
        = ⟨some senderId, rid, some amount, TxKind.transfer, now⟩ ::
            sess.committed.ledger ∧
      ((execute_transfer sess senderId rcpt? amount now
          fault).1.committed.accounts senderId).balance
        = (sess.committed.accounts senderId).balance - amount ∧
      ((execute_transfer sess senderId rcpt? amount now
          fault).1.committed.accounts rid).balance
        = (sess.committed.accounts rid).balance + amount ∧
      (∀ j, j ≠ senderId → j ≠ rid →
        (execute_transfer sess senderId rcpt? amount now
            fault).1.committed.accounts j
          = sess.committed.accounts j) := by
  rcases rcpt? with _ | rid
  · by_cases hs : isEligible (sess.committed.accounts senderId) = false <;>
      simp [execute_transfer, hs] at h
  · by_cases hs : isEligible (sess.committed.accounts senderId) = false
    · simp [execute_transfer, hs] at h
    · by_cases hr : isEligible (sess.committed.accounts rid) = false
      · simp [execute_transfer, hs, hr] at h
      · by_cases hself : senderId = rid
        · simp [execute_transfer, transfer_money, hs, hr, hself] at h
        · by_cases hamt : amount ≤ 0
          · simp [execute_transfer, transfer_money, hs, hr, hself, hamt] at h
          · by_cases hbal :
                (sess.committed.accounts senderId).balance < amount
            · simp [execute_transfer, transfer_money, hs, hr, hself, hamt,
                hbal] at h
            · cases fault
              · refine ⟨rid, rfl, hself, ?_, ?_, ?_, ?_⟩
                · simp [execute_transfer, transfer_money, hs, hr, hself,
                    hamt, hbal, commit, setAccount]
                · simp [execute_transfer, transfer_money, hs, hr, hself,
                    hamt, hbal, commit, setAccount]
                · simp [execute_transfer, transfer_money, hs, hr, hself,
                    hamt, hbal, commit, setAccount]
                · intro j hj1 hj2
                  simp [execute_transfer, transfer_money, hs, hr, hself,
                    hamt, hbal, commit, setAccount, hj1, hj2]
              · simp [execute_transfer, transfer_money, hs, hr, hself,
                  hamt, hbal, rollback] at h

/-- Frame lemma: a failing `admin_deposit` leaves the committed state
exactly as before the call. -/
theorem admin_deposit_fail_frame (sess : Session) (tgt? : Option Nat)
    (amount : ℚ) (now : Nat) (fault : Bool)
    (h : (admin_deposit sess tgt? amount now fault).2 ≠ none) :
    (admin_deposit sess tgt? amount now fault).1.committed
      = sess.committed := by
  rcases tgt? with _ | uid
  · simp [admin_deposit]
  · by_cases he : isEligible (sess.committed.accounts uid) = false
    · simp [admin_deposit, he]
    · by_cases hamt : amount ≤ 0
      · simp [admin_deposit, deposit, he, hamt]
      · cases fault
        · exact absurd (by simp [admin_deposit, deposit, he, hamt, commit]) h
        · simp [admin_deposit, deposit, he, hamt, rollback]

/-- Shape lemma: a succeeding `admin_deposit` committed exactly the unit
of work — target credited by the amount, every other account untouched,
one matching null-sender deposit record appended. -/
theorem admin_deposit_success_shape (sess : Session) (tgt? : Option Nat)
    (amount : ℚ) (now : Nat) (fault : Bool)
    (h : (admin_deposit sess tgt? amount now fault).2 = none) :
    ∃ uid, tgt? = some uid ∧
      (admin_deposit sess tgt? amount now fault).1.committed.ledger
        = ⟨none, uid, some amount, TxKind.deposit, now⟩ ::
            sess.committed.ledger ∧
      ((admin_deposit sess tgt? amount now fault).1.committed.accounts
          uid).balance
        = (sess.committed.accounts uid).balance + amount ∧
      (∀ j, j ≠ uid →
        (admin_deposit sess tgt? amount now fault).1.committed.accounts j
          = sess.committed.accounts j) := by
  rcases tgt? with _ | uid
  · simp [admin_deposit] at h
  · by_cases he : isEligible (sess.committed.accounts uid) = false
    · simp [admin_deposit, he] at h
    · by_cases hamt : amount ≤ 0
      · simp [admin_deposit, deposit, he, hamt] at h
      · cases fault
        · refine ⟨uid, rfl, ?_, ?_, ?_⟩
          · simp [admin_deposit, deposit, he, hamt, commit, setAccount]
          · simp [admin_deposit, deposit, he, hamt, commit, setAccount]
          · intro j hj
            simp [admin_deposit, deposit, he, hamt, commit, setAccount, hj]
        · simp [admin_deposit, deposit, he, hamt, rollback] at h

/-- C2: both mutating operations are one atomic unit of work.  Whenever
`execute_transfer` or `admin_deposit` fails — for any reason, including a
storage fault while the record is appended after the tentative balance
mutation — the committed state is exactly as before the call; whenever
one succeeds, the committed state carries precisely the balance changes
together with the one matching record, so a committed balance change
without a matching record never occurs. -/
theorem unit_of_work_atomic (sess : Session) (senderId : Nat)
    (rcpt? tgt? : Option Nat) (amount : ℚ) (now : Nat) (fault : Bool) :
    ((execute_transfer sess senderId rcpt? amount now fault).2 ≠ none →
        (execute_transfer sess senderId rcpt? amount now fault).1.committed
          = sess.committed) ∧
    ((execute_transfer sess senderId rcpt? amount now fault).2 = none →
        ∃ rid, rcpt? = some rid ∧ senderId ≠ rid ∧
          (execute_transfer sess senderId rcpt? amount now
              fault).1.committed.ledger
            = ⟨some senderId, rid, some amount, TxKind.transfer, now⟩ ::
                sess.committed.ledger ∧
          ((execute_transfer sess senderId rcpt? amount now
              fault).1.committed.accounts senderId).balance
            = (sess.committed.accounts senderId).balance - amount ∧
          ((execute_transfer sess senderId rcpt? amount now
              fault).1.committed.accounts rid).balance
            = (sess.committed.accounts rid).balance + amount ∧
          (∀ j, j ≠ senderId → j ≠ rid →
            (execute_transfer sess senderId rcpt? amount now
                fault).1.committed.accounts j
              = sess.committed.accounts j)) ∧
    ((admin_deposit sess tgt? amount now fault).2 ≠ none →
        (admin_deposit sess tgt? amount now fault).1.committed
          = sess.committed) ∧
    ((admin_deposit sess tgt? amount now fault).2 = none →
        ∃ uid, tgt? = some uid ∧
          (admin_deposit sess tgt? amount now fault).1.committed.ledger
            = ⟨none, uid, some amount, TxKind.deposit, now⟩ ::
                sess.committed.ledger ∧
          ((admin_deposit sess tgt? amount now fault).1.committed.accounts
              uid).balance
            = (sess.committed.accounts uid).balance + amount ∧
          (∀ j, j ≠ uid →
            (admin_deposit sess tgt? amount now fault).1.committed.accounts j
              = sess.committed.accounts j)) :=
  ⟨execute_transfer_fail_frame sess senderId rcpt? amount now fault,
   execute_transfer_success_shape sess senderId rcpt? amount now fault,
   admin_deposit_fail_frame sess tgt? amount now fault,
   admin_deposit_success_shape sess tgt? amount now fault⟩

/-- Witness for C2 at a concrete input: with a fault injected during the
record append, both operations abort and the committed state of `sessEx`
is exactly as before. -/
theorem unit_of_work_atomic_witness :
    (execute_transfer sessEx 1 (some 2) 5 0 true).1.committed
      = sessEx.committed ∧
    (admin_deposit sessEx (some 2) 5 0 true).1.committed
      = sessEx.committed :=
  ⟨(unit_of_work_atomic sessEx 1 (some 2) (some 2) 5 0 true).1 (by decide),
   (unit_of_work_atomic sessEx 1 (some 2) (some 2) 5 0 true).2.2.1
     (by decide)⟩

end BankCore
